import Mathlib

/-
Verification of the wincurses library (wincurses.c / wincurses.h).

The C sources are shallowly embedded below.  Conventions of the embedding:

* C `int` values that can go negative are modelled as `Int`; bitmask-valued
  quantities (flag words, console attribute words, console mode words) are
  modelled as `Nat`.
* 32-bit two's-complement behaviour (the Windows `int`) is made explicit with
  `toSigned32`; the arithmetic right shift of a negative `int` (MSVC semantics)
  is floor division by the corresponding power of two.
* The two console screen buffers of a window are modelled as total functions
  from (row, column) to a cell holding a character code and an attribute mask,
  mirroring what `ReadConsoleOutput` / `WriteConsoleOutput` transport.
* The console backend's fallible primitives are modelled by environments:
  `Backend.writeOk` says whether a one-cell `WriteConsoleOutput` at a given
  cursor position succeeds, and `ConsoleEnv` says whether `GetConsoleMode` /
  `SetConsoleMode` succeed.
* Variadic formatting (`vsprintf_s`) is opaque to the library; its outcome is
  passed in as `Option (List Int)`: `none` models a negative return (failure),
  `some s` the formatted character string.
* The library owns exactly one window (`stdscr`), but the public entry points
  take a `WINDOW *`; the state therefore carries two window slots indexed by
  `Bool`, slot `stdscrId = false` being `stdscr` and slot `true` a caller-held
  window, so that `stdscr`-vs-argument-window effects are observable.
-/

/-! ## Constants from wincurses.h -/

def ERR : Int := 0
def OK : Int := 1
def TRUE : Int := 1
def FALSE : Int := 0

def HAS_COLORS : Int := TRUE
def CAN_CHANGE_COLOR : Int := FALSE
def NUM_COLORS : Int := 8
def COLOR_BITS : Nat := 6
def MAX_NUM_PAIRS : Int := 64

/-- Global program flag bit masks: `WC_ECHO = 1 << 0`, `WC_COLOR = 1 << 1`. -/
def WC_ECHO : Nat := 1
def WC_COLOR : Nat := 2

/-- Window-specific flag bit masks: `WC_WKEYPAD = 1 << 0`, `WC_NODELAY = 1 << 1`. -/
def WC_WKEYPAD : Nat := 1
def WC_NODELAY : Nat := 2

/-- Attribute bit masks from the `attr` enum (`A_ALTCHARSET = 1 << 0`, ...). -/
def A_ALTCHARSET : Nat := 1
def A_BLINK : Nat := 2
def A_BOLD : Nat := 4
def A_DIM : Nat := 8
def A_INVIS : Nat := 16
def A_PROTECT : Nat := 32
def A_REVERSE : Nat := 64
def A_STANDOUT : Nat := 128
def A_UNDERLINE : Nat := 256

/-- Color codes from the `colorcode` enum. -/
def COLOR_BLACK : Int := 0
def COLOR_BLUE : Int := 1
def COLOR_GREEN : Int := 2
def COLOR_CYAN : Int := 3
def COLOR_RED : Int := 4
def COLOR_MAGENTA : Int := 5
def COLOR_YELLOW : Int := 6
def COLOR_WHITE : Int := 7

/-! Windows console constants (wincon.h / winbase.h values used by the source). -/

def FOREGROUND_BLUE : Nat := 1
def FOREGROUND_GREEN : Nat := 2
def FOREGROUND_RED : Nat := 4
def FOREGROUND_INTENSITY : Nat := 8
def BACKGROUND_INTENSITY : Nat := 128
def COMMON_LVB_REVERSE_VIDEO : Nat := 16384
def COMMON_LVB_UNDERSCORE : Nat := 32768
def ENABLE_PROCESSED_INPUT : Nat := 1
def ENABLE_LINE_INPUT : Nat := 2
def ENABLE_ECHO_INPUT : Nat := 4

/-- All bits of a 32-bit `DWORD`; `mode &= ~bmask` on a `DWORD` is
`mode &&& (DWORD_MASK ^^^ bmask)`. -/
def DWORD_MASK : Nat := 2 ^ 32 - 1

/-! ## 32-bit int arithmetic and the color-pair bit packing -/

/-- Reinterpret a bit pattern as a 32-bit two's-complement signed `int`. -/
def toSigned32 (n : Nat) : Int :=
  if n % 2 ^ 32 < 2 ^ 31 then ((n % 2 ^ 32 : Nat) : Int)
  else ((n % 2 ^ 32 : Nat) : Int) - 2 ^ 32

/-- `COLOR_PAIR(n)` from wincurses.c: `return (n << (32 - COLOR_BITS));` on a
32-bit `int`.  The left shift wraps at 32 bits and the result is read back as a
signed `int` (MSVC behaviour for the Windows target). -/
def COLOR_PAIR (n : Int) : Int :=
  toSigned32 ((n.emod (2 ^ 32)).toNat <<< (32 - COLOR_BITS))

/-- `A_COLOR_DATA(attrs)` from wincurses.h: `attrs >> (32 - COLOR_BITS)` on a
signed `int`; the arithmetic right shift of a two's-complement value is floor
division by `2^(32 - COLOR_BITS)`. -/
def A_COLOR_DATA (attrs : Int) : Int :=
  Int.fdiv attrs (2 ^ (32 - COLOR_BITS))

/-- `PAIR_NUMBER(value)` from wincurses.c: `return A_COLOR_DATA(value);`. -/
def PAIR_NUMBER (value : Int) : Int :=
  A_COLOR_DATA value

/-- `FTOB(f)` from wincurses.h: Windows foreground mask to background mask. -/
def FTOB (f : Nat) : Nat := f <<< 4

/-! ## Data model -/

/-- `color_t`: an RGB triple. -/
structure Color where
  r : Int
  g : Int
  b : Int
deriving DecidableEq

/-- `colorinfo_t`: a foreground/background pair of color indices. -/
structure ColorInfo where
  f : Int
  b : Int
deriving DecidableEq

/-- One console screen-buffer cell: character plus attribute word
(`CHAR_INFO`). -/
structure CharCell where
  ch : Int
  attrs : Nat
deriving DecidableEq

/-- Contents of one console screen buffer, addressed by (row, column). -/
abbrev Grid := Int → Int → CharCell

/-- The `WINDOW` structure: viewport rectangle, derived size, cursor, the two
console screen buffers with the primary/back indices, per-window flags and the
current attribute word. -/
structure Window where
  rectTop : Int
  rectLeft : Int
  rectBottom : Int
  rectRight : Int
  sizeY : Int
  sizeX : Int
  curY : Int
  curX : Int
  hcon : Bool → Grid
  prim : Bool
  bbuf : Bool
  flags : Nat
  attrs : Nat

/-- Identifier of `stdscr` in the window table. -/
def stdscrId : Bool := false

/-- Process-wide library state: the window table (`stdscr` plus one caller
window slot), the global flags, the `colors` and `color_pairs` arrays and the
`COLORS` / `COLOR_PAIRS` globals. -/
structure LibState where
  windows : Bool → Window
  flags : Nat
  colors : Int → Color
  color_pairs : Int → ColorInfo
  COLORS : Int
  COLOR_PAIRS : Int

/-- Replace one window of the state, leaving the other untouched. -/
def updateWin (st : LibState) (wid : Bool) (f : Window → Window) : LibState :=
  { st with windows := fun i => if i = wid then f (st.windows i) else st.windows i }

/-! ## Cursor movement -/

/-- `wmove` from wincurses.c: bounds check against `size`, then set the
cursor. -/
def wmove (w : Window) (y x : Int) : Window × Int :=
  if y ≥ w.sizeY ∨ x ≥ w.sizeX ∨ y < 0 ∨ x < 0 then (w, ERR)
  else ({ w with curY := y, curX := x }, OK)

/-- `wmove` acting on a window slot of the library state. -/
def stateWmove (st : LibState) (wid : Bool) (y x : Int) : LibState × Int :=
  (updateWin st wid (fun _ => (wmove (st.windows wid) y x).fst),
   (wmove (st.windows wid) y x).snd)

/-! ## Output writer -/

/-- Backend environment for the output path: whether the one-cell
`WriteConsoleOutput` issued by `waddch` at a given cursor (row, column)
succeeds. -/
structure Backend where
  writeOk : Int → Int → Bool

/-- `waddch` from wincurses.c.  Carriage return (13) resets the column;
newline (10) resets the column and increments the row (no clamp); any other
character is written into the back buffer `hcon[bbuf]` at the cursor with the
window's current attribute word, and the cursor advances by one column modulo
`size.X`, moving to a new row on wrap.  A failing backend write returns `ERR`
with the window unchanged.  (`size.X = 0` would be a division by zero in C;
no caller produces it.) -/
def waddch (env : Backend) (w : Window) (ch : Int) : Window × Int :=
  if ch = 13 then ({ w with curX := 0 }, OK)
  else if ch = 10 then ({ w with curX := 0, curY := w.curY + 1 }, OK)
  else if env.writeOk w.curY w.curX then
    let w1 := { w with hcon := fun i y x =>
      if i = w.bbuf ∧ y = w.curY ∧ x = w.curX then ⟨ch, w.attrs⟩ else w.hcon i y x }
    let newX := (w.curX + 1).emod w.sizeX
    ({ w1 with curX := newX, curY := if newX = 0 then w1.curY + 1 else w1.curY }, OK)
  else (w, ERR)

/-- `waddch` acting on a window slot of the library state. -/
def stateWaddch (env : Backend) (st : LibState) (wid : Bool) (ch : Int) : LibState × Int :=
  (updateWin st wid (fun _ => (waddch env (st.windows wid) ch).fst),
   (waddch env (st.windows wid) ch).snd)

/-- `addch` from wincurses.c: `waddch` on `stdscr`. -/
def addch (env : Backend) (st : LibState) (ch : Int) : LibState × Int :=
  stateWaddch env st stdscrId ch

/-- The write loop of `va_wprintw`:
`while (s[n] && waddch(win, s[n]) == OK) n++;` — write characters until the
string is exhausted or one `waddch` fails. -/
def writeChars (env : Backend) (w : Window) : List Int → Window
  | [] => w
  | c :: cs =>
    if (waddch env w c).snd = OK then writeChars env (waddch env w c).fst cs
    else (waddch env w c).fst

/-- `va_wprintw` from wincurses.c.  The `vsprintf_s` call is opaque to the
library; its outcome arrives as `fmtResult` (`none`: negative return, `ERR`;
`some s`: the formatted string).  After a successful format the characters are
fed through `waddch` until exhaustion or a failure, and `OK` is returned
unconditionally — a mid-string `waddch` failure is not reported. -/
def va_wprintw (env : Backend) (st : LibState) (wid : Bool)
    (fmtResult : Option (List Int)) : LibState × Int :=
  match fmtResult with
  | none => (st, ERR)
  | some s => (updateWin st wid (fun w => writeChars env w s), OK)

/-- `printw` from wincurses.c: `va_wprintw` on `stdscr`. -/
def printw (env : Backend) (st : LibState) (fmtResult : Option (List Int)) :
    LibState × Int :=
  va_wprintw env st stdscrId fmtResult

/-- `wprintw` from wincurses.c: `va_wprintw` on the given window. -/
def wprintw (env : Backend) (st : LibState) (wid : Bool)
    (fmtResult : Option (List Int)) : LibState × Int :=
  va_wprintw env st wid fmtResult

/-- `mvprintw` from wincurses.c: saves `stdscr->cur`, moves on `stdscr`,
prints on `stdscr`, and on a failed print restores `stdscr->cur`. -/
def mvprintw (env : Backend) (st : LibState) (y x : Int)
    (fmtResult : Option (List Int)) : LibState × Int :=
  let oldY := (st.windows stdscrId).curY
  let oldX := (st.windows stdscrId).curX
  let st1 := (stateWmove st stdscrId y x).fst
  let r := va_wprintw env st1 stdscrId fmtResult
  if r.snd = ERR then
    (updateWin r.fst stdscrId (fun w => { w with curY := oldY, curX := oldX }), r.snd)
  else r

/-- `mvwprintw` from wincurses.c.  Note what the source saves and restores:
`COORD oldcur = stdscr->cur;` before moving on `win`, and `stdscr->cur =
oldcur;` when the print step fails — the cursor of `stdscr`, not of `win`. -/
def mvwprintw (env : Backend) (st : LibState) (wid : Bool) (y x : Int)
    (fmtResult : Option (List Int)) : LibState × Int :=
  let oldY := (st.windows stdscrId).curY
  let oldX := (st.windows stdscrId).curX
  let st1 := (stateWmove st wid y x).fst
  let r := va_wprintw env st1 wid fmtResult
  if r.snd = ERR then
    (updateWin r.fst stdscrId (fun w => { w with curY := oldY, curX := oldX }), r.snd)
  else r

/-! ## Buffer swap protocol (`refresh`) -/

/-- The buffer work of `refresh` on one window: the contents of the back
buffer over the window rectangle are copied into the primary buffer
(`ReadConsoleOutput` from `hcon[bbuf]` / `WriteConsoleOutput` to `hcon[prim]`
over `stdscr->rect`), then the indices are swapped by
`bbuf = !(prim = !prim)`.  The `SetConsoleActiveScreenBuffer` and
`SetConsoleCursorPosition` calls affect only the display, which holds no cell
state of its own. -/
def refreshWin (w : Window) : Window × Int :=
  let copied : Bool → Grid := fun i y x =>
    if i = w.prim ∧ w.rectTop ≤ y ∧ y ≤ w.rectBottom ∧
        w.rectLeft ≤ x ∧ x ≤ w.rectRight then
      w.hcon w.bbuf y x
    else w.hcon i y x
  ({ w with hcon := copied, prim := !w.prim, bbuf := !(!w.prim) }, OK)

/-- `refresh` from wincurses.c: the buffer swap protocol on `stdscr`. -/
def refresh (st : LibState) : LibState × Int :=
  (updateWin st stdscrId (fun _ => (refreshWin (st.windows stdscrId)).fst),
   (refreshWin (st.windows stdscrId)).snd)

/-! ## Attribute and color table -/

/-- `can_change_color` from wincurses.c: the compile-time constant
`CAN_CHANGE_COLOR` (FALSE). -/
def can_change_color : Int := CAN_CHANGE_COLOR

/-- `has_colors` from wincurses.c.  It zeroes and then (since `HAS_COLORS` is
the compile-time constant TRUE) repopulates the `COLORS` / `COLOR_PAIRS`
globals, returning `HAS_COLORS`. -/
def has_colors (st : LibState) : LibState × Int :=
  let st1 := { st with COLORS := 0, COLOR_PAIRS := 0 }
  if HAS_COLORS = TRUE then
    ({ st1 with COLORS := NUM_COLORS, COLOR_PAIRS := MAX_NUM_PAIRS }, HAS_COLORS)
  else (st1, HAS_COLORS)

/-- Pointwise update of the `color_pairs` array. -/
def setPair (ps : Int → ColorInfo) (i : Int) (p : ColorInfo) : Int → ColorInfo :=
  fun j => if j = i then p else ps j

/-- Pointwise update of the `colors` array. -/
def setColor (cs : Int → Color) (i : Int) (c : Color) : Int → Color :=
  fun j => if j = i then c else cs j

/-- `init_pair` from wincurses.c.  The guard
`flags & WC_COLOR && has_colors() && pair < COLOR_PAIRS && pair > 0`
short-circuits: `has_colors` (with its side effect on the globals) only runs
when the color flag is set; pair 0 is always rejected. -/
def init_pair (st : LibState) (pair f b : Int) : LibState × Int :=
  if st.flags &&& WC_COLOR ≠ 0 then
    let hc := has_colors st
    if hc.snd ≠ 0 ∧ pair < hc.fst.COLOR_PAIRS ∧ pair > 0 then
      ({ hc.fst with color_pairs := setPair hc.fst.color_pairs pair ⟨f, b⟩ }, OK)
    else (hc.fst, ERR)
  else (st, ERR)

/-- `pair_content` from wincurses.c.  The third component models what the
function stores through the caller's output pointers.  The source executes
`f = &color_pairs[pair].f; b = &color_pairs[pair].b;` — assignments to its
local pointer parameters, not stores through them — so nothing ever reaches
the caller's variables and the component is `none` on every path. -/
def pair_content (st : LibState) (pair : Int) :
    LibState × Int × Option (Int × Int) :=
  if st.flags &&& WC_COLOR ≠ 0 then
    let hc := has_colors st
    if hc.snd ≠ 0 ∧ pair < hc.fst.COLOR_PAIRS ∧ pair ≥ 0 then
      (hc.fst, OK, none)
    else (hc.fst, ERR, none)
  else (st, ERR, none)

/-- `getattrs` from wincurses.c: resolve an attribute word (taken as the C
`unsigned int`) into a Windows console attribute mask.  Style bits are OR-ed
in one by one; when the color flag is on (and the palette cannot be
reprogrammed) the pair's foreground/background RGB entries are approximated by
testing each channel against zero.  `PAIR_NUMBER` receives the attribute word
converted to a signed `int`. -/
def getattrs (st : LibState) (attrs : Nat) : Nat :=
  let bmask : Nat :=
    (if attrs &&& A_BOLD ≠ 0 then FOREGROUND_INTENSITY else 0) |||
    (if attrs &&& A_REVERSE ≠ 0 then COMMON_LVB_REVERSE_VIDEO else 0) |||
    (if attrs &&& A_STANDOUT ≠ 0 then BACKGROUND_INTENSITY else 0) |||
    (if attrs &&& A_UNDERLINE ≠ 0 then COMMON_LVB_UNDERSCORE else 0)
  if st.flags &&& WC_COLOR ≠ 0 ∧ can_change_color = FALSE then
    let p := PAIR_NUMBER (toSigned32 attrs)
    let fc := st.colors (st.color_pairs p).f
    let cmf : Nat :=
      (if fc.r = 0 then 0 else FOREGROUND_RED) |||
      (if fc.g = 0 then 0 else FOREGROUND_GREEN) |||
      (if fc.b = 0 then 0 else FOREGROUND_BLUE)
    let bc := st.colors (st.color_pairs p).b
    let cmb : Nat :=
      (if bc.r = 0 then 0 else FOREGROUND_RED) |||
      (if bc.g = 0 then 0 else FOREGROUND_GREEN) |||
      (if bc.b = 0 then 0 else FOREGROUND_BLUE)
    bmask ||| cmf ||| FTOB cmb
  else bmask

/-- `wattrset` from wincurses.c: the window's attribute word is replaced by
the resolved mask.  The `int` argument is converted to the `unsigned int`
parameter of `getattrs`. -/
def wattrset (st : LibState) (wid : Bool) (attrs : Int) : LibState × Int :=
  (updateWin st wid (fun w => { w with attrs := getattrs st (attrs.emod (2 ^ 32)).toNat }), OK)

/-- `attrset` from wincurses.c: `wattrset` on `stdscr`. -/
def attrset (st : LibState) (attrs : Int) : LibState × Int :=
  wattrset st stdscrId attrs

/-- `start_color` from wincurses.c: populate the 8 basic colors, call
`init_pair(0, COLOR_WHITE, COLOR_BLACK)` and `attrset(COLOR_PAIR(0))`, then
set the global color flag.  (The `init_pair` call's status is discarded by the
source.) -/
def start_color (st : LibState) : LibState × Int :=
  let hc := has_colors st
  if hc.snd ≠ 0 then
    let basic : Int → Color :=
      setColor (setColor (setColor (setColor (setColor (setColor (setColor (setColor
        hc.fst.colors
        COLOR_BLACK ⟨0, 0, 0⟩)
        COLOR_BLUE ⟨0, 0, 1000⟩)
        COLOR_GREEN ⟨0, 1000, 0⟩)
        COLOR_CYAN ⟨0, 1000, 1000⟩)
        COLOR_RED ⟨1000, 0, 0⟩)
        COLOR_MAGENTA ⟨1000, 0, 1000⟩)
        COLOR_YELLOW ⟨1000, 1000, 0⟩)
        COLOR_WHITE ⟨1000, 1000, 1000⟩
    let st2 := { hc.fst with colors := basic }
    let st3 := (init_pair st2 0 COLOR_WHITE COLOR_BLACK).fst
    let st4 := (attrset st3 (COLOR_PAIR 0)).fst
    ({ st4 with flags := st4.flags ||| WC_COLOR }, OK)
  else (hc.fst, ERR)

/-! ## Mode controls (console input modes) -/

/-- Backend environment for the console-mode path: whether `GetConsoleMode`
and `SetConsoleMode` succeed. -/
structure ConsoleEnv where
  getModeOk : Bool
  setModeOk : Bool

/-- `clearmode` from wincurses.c: read the console mode, clear the masked
bits, write the mode back.  Fails (mode unchanged) if either backend call
fails. -/
def clearmode (env : ConsoleEnv) (mode : Nat) (bmask : Nat) : Nat × Int :=
  if env.getModeOk = false then (mode, ERR)
  else
    let m := mode &&& (DWORD_MASK ^^^ bmask)
    if env.setModeOk then (m, OK) else (mode, ERR)

/-- `setmode` from wincurses.c.  The source reads

    if (!GetConsoleMode(hcon, &mode));
        return ERR;

— the semicolon after the condition closes the `if` with an empty body, so
`return ERR` executes unconditionally and the lines that would OR in the mask
and call `SetConsoleMode` are unreachable.  The function always returns `ERR`
and never changes the mode. -/
def setmode (env : ConsoleEnv) (mode : Nat) (bmask : Nat) : Nat × Int :=
  let _ := env.getModeOk
  let _ := bmask
  (mode, ERR)

/-- `cbreak` from wincurses.c: clear `ENABLE_LINE_INPUT`, then set
`ENABLE_PROCESSED_INPUT`, failing as soon as one step fails. -/
def cbreak (env : ConsoleEnv) (mode : Nat) : Nat × Int :=
  let c := clearmode env mode ENABLE_LINE_INPUT
  if c.snd = ERR then c
  else
    let s := setmode env c.fst ENABLE_PROCESSED_INPUT
    if s.snd = ERR then s
    else (s.fst, OK)

/-! ## Input translator -/

/-- Virtual-key codes (winuser.h) referenced by the `wgetch` switch. -/
def VK_CANCEL : Nat := 3
def VK_BACK : Nat := 8
def VK_CLEAR : Nat := 12
def VK_RETURN : Nat := 13
def VK_CONTROL : Nat := 17
def VK_ESCAPE : Nat := 27
def VK_PRIOR : Nat := 33
def VK_NEXT : Nat := 34
def VK_END : Nat := 35
def VK_HOME : Nat := 36
def VK_LEFT : Nat := 37
def VK_UP : Nat := 38
def VK_RIGHT : Nat := 39
def VK_DOWN : Nat := 40
def VK_SELECT : Nat := 41
def VK_PRINT : Nat := 42
def VK_INSERT : Nat := 45
def VK_DELETE : Nat := 46
def VK_HELP : Nat := 47

/-- Numeric-keypad virtual keys: `VK_NUMPAD0 = 0x60`, consecutive upward. -/
def VK_NUMPAD (n : Nat) : Nat := 96 + n

/-- Function-key virtual keys: `VK_F1 = 0x70`, consecutive upward, so
`VK_F n = 0x6F + n` for `1 ≤ n ≤ 24`. -/
def VK_F (n : Nat) : Nat := 111 + n

/-- Key codes from the `keycode` enum of wincurses.h, starting at
`KEY_CODE_YES = 256` and counting up; `KEY_DL` restarts at `KEY_F0 + 64`. -/
def KEY_CODE_YES : Int := 256
def KEY_BREAK : Int := KEY_CODE_YES + 1
def KEY_DOWN : Int := KEY_BREAK + 1
def KEY_UP : Int := KEY_DOWN + 1
def KEY_LEFT : Int := KEY_UP + 1
def KEY_RIGHT : Int := KEY_LEFT + 1
def KEY_HOME : Int := KEY_RIGHT + 1
def KEY_BACKSPACE : Int := KEY_HOME + 1
def KEY_F0 : Int := KEY_BACKSPACE + 1

/-- `KEY_F(n)` from wincurses.h. -/
def KEY_F (n : Int) : Int := KEY_F0 + n

def KEY_DL : Int := KEY_F0 + 64
def KEY_IL : Int := KEY_DL + 1
def KEY_DC : Int := KEY_IL + 1
def KEY_IC : Int := KEY_DC + 1
def KEY_EIC : Int := KEY_IC + 1
def KEY_CLEAR : Int := KEY_EIC + 1
def KEY_EOS : Int := KEY_CLEAR + 1
def KEY_EOL : Int := KEY_EOS + 1
def KEY_SF : Int := KEY_EOL + 1
def KEY_SR : Int := KEY_SF + 1
def KEY_NPAGE : Int := KEY_SR + 1
def KEY_PPAGE : Int := KEY_NPAGE + 1
def KEY_STAB : Int := KEY_PPAGE + 1
def KEY_CTAB : Int := KEY_STAB + 1
def KEY_CATAB : Int := KEY_CTAB + 1
def KEY_ENTER : Int := KEY_CATAB + 1
def KEY_SRESET : Int := KEY_ENTER + 1
def KEY_RESET : Int := KEY_SRESET + 1
def KEY_PRINT : Int := KEY_RESET + 1
def KEY_LL : Int := KEY_PRINT + 1
def KEY_A1 : Int := KEY_LL + 1
def KEY_A3 : Int := KEY_A1 + 1
def KEY_B2 : Int := KEY_A3 + 1
def KEY_C1 : Int := KEY_B2 + 1
def KEY_C3 : Int := KEY_C1 + 1
def KEY_BTAB : Int := KEY_C3 + 1
def KEY_BEG : Int := KEY_BTAB + 1
def KEY_CANCEL : Int := KEY_BEG + 1
def KEY_CLOSE : Int := KEY_CANCEL + 1
def KEY_COMMAND : Int := KEY_CLOSE + 1
def KEY_COPY : Int := KEY_COMMAND + 1
def KEY_CREATE : Int := KEY_COPY + 1
def KEY_END : Int := KEY_CREATE + 1
def KEY_EXIT : Int := KEY_END + 1
def KEY_FIND : Int := KEY_EXIT + 1
def KEY_HELP : Int := KEY_FIND + 1
def KEY_MARK : Int := KEY_HELP + 1
def KEY_MESSAGE : Int := KEY_MARK + 1
def KEY_MOVE : Int := KEY_MESSAGE + 1
def KEY_NEXT : Int := KEY_MOVE + 1
def KEY_OPEN : Int := KEY_NEXT + 1
def KEY_OPTIONS : Int := KEY_OPEN + 1
def KEY_PREVIOUS : Int := KEY_OPTIONS + 1
def KEY_REDO : Int := KEY_PREVIOUS + 1
def KEY_REFERENCE : Int := KEY_REDO + 1
def KEY_REFRESH : Int := KEY_REFERENCE + 1
def KEY_REPLACE : Int := KEY_REFRESH + 1
def KEY_RESTART : Int := KEY_REPLACE + 1
def KEY_RESUME : Int := KEY_RESTART + 1
def KEY_SAVE : Int := KEY_RESUME + 1
def KEY_SBEG : Int := KEY_SAVE + 1
def KEY_SCANCEL : Int := KEY_SBEG + 1
def KEY_SCOMMAND : Int := KEY_SCANCEL + 1
def KEY_SCOPY : Int := KEY_SCOMMAND + 1
def KEY_SCREATE : Int := KEY_SCOPY + 1
def KEY_SDC : Int := KEY_SCREATE + 1
def KEY_SDL : Int := KEY_SDC + 1
def KEY_SELECT : Int := KEY_SDL + 1

/-- The `switch (c.Event.KeyEvent.wVirtualKeyCode)` of `wgetch`, as a lookup:
`some code` when a `case` matches, `none` when the switch falls through and
`r` keeps the raw character.  There is no `VK_INSERT` case in the source. -/
def vkTranslate (vk : Nat) : Option Int :=
  if vk = VK_ESCAPE then some KEY_EXIT
  else if vk = VK_CANCEL then some KEY_CANCEL
  else if vk = VK_BACK then some KEY_BACKSPACE
  else if vk = VK_CLEAR then some KEY_CLEAR
  else if vk = VK_RETURN then some KEY_ENTER
  else if vk = VK_CONTROL then some KEY_COMMAND
  else if vk = VK_PRIOR then some KEY_PPAGE
  else if vk = VK_NEXT then some KEY_NPAGE
  else if vk = VK_END then some KEY_END
  else if vk = VK_HOME then some KEY_HOME
  else if vk = VK_LEFT then some KEY_LEFT
  else if vk = VK_UP then some KEY_UP
  else if vk = VK_RIGHT then some KEY_RIGHT
  else if vk = VK_DOWN then some KEY_DOWN
  else if vk = VK_SELECT then some KEY_SELECT
  else if vk = VK_PRINT then some KEY_PRINT
  else if vk = VK_DELETE then some KEY_DC
  else if vk = VK_HELP then some KEY_HELP
  else if vk = VK_NUMPAD 1 then some KEY_C1
  else if vk = VK_NUMPAD 2 then some KEY_DOWN
  else if vk = VK_NUMPAD 3 then some KEY_C3
  else if vk = VK_NUMPAD 4 then some KEY_LEFT
  else if vk = VK_NUMPAD 5 then some KEY_B2
  else if vk = VK_NUMPAD 6 then some KEY_RIGHT
  else if vk = VK_NUMPAD 7 then some KEY_A1
  else if vk = VK_NUMPAD 8 then some KEY_UP
  else if vk = VK_NUMPAD 9 then some KEY_A3
  else if vk = VK_F 1 then some (KEY_F 1)
  else if vk = VK_F 2 then some (KEY_F 2)
  else if vk = VK_F 3 then some (KEY_F 3)
  else if vk = VK_F 4 then some (KEY_F 4)
  else if vk = VK_F 5 then some (KEY_F 5)
  else if vk = VK_F 6 then some (KEY_F 6)
  else if vk = VK_F 7 then some (KEY_F 7)
  else if vk = VK_F 8 then some (KEY_F 8)
  else if vk = VK_F 9 then some (KEY_F 9)
  else if vk = VK_F 10 then some (KEY_F 10)
  else if vk = VK_F 11 then some (KEY_F 11)
  else if vk = VK_F 12 then some (KEY_F 12)
  else if vk = VK_F 13 then some (KEY_F 13)
  else if vk = VK_F 14 then some (KEY_F 14)
  else if vk = VK_F 15 then some (KEY_F 15)
  else if vk = VK_F 16 then some (KEY_F 16)
  else if vk = VK_F 17 then some (KEY_F 17)
  else if vk = VK_F 18 then some (KEY_F 18)
  else if vk = VK_F 19 then some (KEY_F 19)
  else if vk = VK_F 20 then some (KEY_F 20)
  else if vk = VK_F 21 then some (KEY_F 21)
  else if vk = VK_F 22 then some (KEY_F 22)
  else if vk = VK_F 23 then some (KEY_F 23)
  else if vk = VK_F 24 then some (KEY_F 24)
  else none

/-- One `INPUT_RECORD` as far as `wgetch` inspects it: whether it is a
`KEY_EVENT`, whether the key is down, and the `uChar.AsciiChar` and
`wVirtualKeyCode` fields. -/
structure InputEvent where
  isKeyEvent : Bool
  keyDown : Bool
  asciiChar : Int
  virtualKeyCode : Nat
deriving DecidableEq

/-- The polling loop of `wgetch`: read input records, discarding everything
until a key-down key event arrives; `none` when the supplied input is
exhausted first. -/
def wgetchLoop : List InputEvent → Option InputEvent
  | [] => none
  | e :: rest => if e.isKeyEvent && e.keyDown then some e else wgetchLoop rest

/-- `wgetch` from wincurses.c over a queue of pending input records.  When no
key-down event is pending the C loop either returns `ERR` (no-delay mode with
an empty queue) or blocks for input that, in this model, never arrives; both
are rendered as `ERR` here and no claim depends on that branch.  On a key-down
event: echo the raw character to `stdscr` when the global echo flag is set,
then return the translated key code when the window's keypad flag is set
(raw character when the switch falls through), the raw character otherwise. -/
def wgetch (env : Backend) (st : LibState) (wid : Bool)
    (events : List InputEvent) : LibState × Int :=
  match wgetchLoop events with
  | none => (st, ERR)
  | some e =>
    (if st.flags &&& WC_ECHO ≠ 0 then (addch env st e.asciiChar).fst else st,
     if (st.windows wid).flags &&& WC_WKEYPAD ≠ 0 then
       match vkTranslate e.virtualKeyCode with
       | some k => k
       | none => e.asciiChar
     else e.asciiChar)

/-- `mvwgetch` from wincurses.c: `wmove(stdscr, y, x); return wgetch(win);` —
the move is performed on `stdscr`, whatever window was passed. -/
def mvwgetch (env : Backend) (st : LibState) (wid : Bool) (y x : Int)
    (events : List InputEvent) : LibState × Int :=
  wgetch env (stateWmove st stdscrId y x).fst wid events

/-- `getch` from wincurses.c: `wgetch` on `stdscr`. -/
def getch (env : Backend) (st : LibState) (events : List InputEvent) :
    LibState × Int :=
  wgetch env st stdscrId events

/-! ## Concrete instances for evaluation -/

/-- A buffer filled with the background character `WC_BGND` (' ' = 32), as
`cls` leaves it. -/
def clearedGrid : Grid := fun _ _ => ⟨32, 0⟩

/-- A window as `initscr` builds `stdscr` for a viewport at the origin:
cursor (0,0), primary index 0, back index 1, attributes grey-on-black. -/
def initWindow (rows cols : Int) : Window :=
  { rectTop := 0, rectLeft := 0, rectBottom := rows - 1, rectRight := cols - 1,
    sizeY := rows, sizeX := cols, curY := 0, curX := 0,
    hcon := fun _ => clearedGrid, prim := false, bbuf := true,
    flags := 0, attrs := FOREGROUND_RED ||| FOREGROUND_GREEN ||| FOREGROUND_BLUE }

/-- The library state right after `initscr`: zero-initialized C globals
(flags, color and pair tables, `COLORS`, `COLOR_PAIRS`) and freshly created
windows. -/
def initState (rows cols : Int) : LibState :=
  { windows := fun _ => initWindow rows cols,
    flags := 0,
    colors := fun _ => ⟨0, 0, 0⟩,
    color_pairs := fun _ => ⟨0, 0⟩,
    COLORS := 0, COLOR_PAIRS := 0 }

/-- A 25x80 post-`initscr` state. -/
def stInit : LibState := initState 25 80

/-- The state after `start_color()` on `stInit` (color subsystem enabled). -/
def stColor : LibState := (start_color stInit).fst

/-- Two distinguishable buffer contents for exercising `refresh`. -/
def gridA : Grid := fun y x => ⟨y + x, 1⟩

def gridB : Grid := fun y x => ⟨y * x + 2, 5⟩

/-- A concrete `stdscr`: 5 rows, 10 columns, cursor at (3,4), the two console
buffers holding different contents. -/
def winStd : Window :=
  { rectTop := 0, rectLeft := 0, rectBottom := 4, rectRight := 9,
    sizeY := 5, sizeX := 10, curY := 3, curX := 4,
    hcon := fun i => if i then gridB else gridA, prim := false, bbuf := true,
    flags := 0, attrs := 7 }

/-- A concrete caller-held window distinct from `winStd`: cursor at (2,6),
keypad translation enabled. -/
def winAlt : Window :=
  { rectTop := 0, rectLeft := 0, rectBottom := 4, rectRight := 9,
    sizeY := 5, sizeX := 10, curY := 2, curX := 6,
    hcon := fun i => if i then gridB else gridA, prim := false, bbuf := true,
    flags := WC_WKEYPAD, attrs := 7 }

/-- A state holding `winStd` as `stdscr` and `winAlt` in the caller slot. -/
def stTwo : LibState :=
  { windows := fun i => if i then winAlt else winStd,
    flags := 0,
    colors := fun _ => ⟨0, 0, 0⟩,
    color_pairs := fun _ => ⟨0, 0⟩,
    COLORS := 0, COLOR_PAIRS := 0 }

/-- A backend whose cell writes always succeed. -/
def envOk : Backend := ⟨fun _ _ => true⟩

/-- A backend whose cell writes always fail. -/
def envFail : Backend := ⟨fun _ _ => false⟩

/-- A key-down event for the insert key (`VK_INSERT`), raw character 97. -/
def eIns : InputEvent := ⟨true, true, 97, VK_INSERT⟩

/-- A key-down event for the left-arrow key (`VK_LEFT`), raw character 75. -/
def eLeft : InputEvent := ⟨true, true, 75, VK_LEFT⟩

/-! ## Helper lemmas -/

/-- A failing `waddch` leaves the window unchanged: the only `ERR` path is the
failing backend write, which returns the window as received. -/
theorem waddch_err_fst (env : Backend) (w : Window) (c : Int)
    (h : (waddch env w c).snd = ERR) : (waddch env w c).fst = w := by
  unfold waddch at *
  split_ifs at h ⊢ <;> simp_all [OK, ERR]

/-! ## Claim C8: wmove bounds behaviour -/

/-- Claim C8: for every window and every (row, col) inside
`[0, rows) x [0, cols)`, `wmove` succeeds and the cursor becomes (row, col);
for every coordinate with a negative component or one at/past the
corresponding size component, `wmove` returns `ERR` and the window (its
cursor included) is unchanged. -/
theorem wmove_bounds (w : Window) (y x : Int) :
    (0 ≤ y → y < w.sizeY → 0 ≤ x → x < w.sizeX →
      wmove w y x = ({ w with curY := y, curX := x }, OK)) ∧
    ((y < 0 ∨ x < 0 ∨ y ≥ w.sizeY ∨ x ≥ w.sizeX) →
      wmove w y x = (w, ERR)) := by
  constructor
  · intro hy0 hy hx0 hx
    unfold wmove
    rw [if_neg]
    push_neg
    exact ⟨hy, hx, hy0, hx0⟩
  · intro h
    unfold wmove
    rw [if_pos]
    rcases h with h | h | h | h
    · exact Or.inr (Or.inr (Or.inl h))
    · exact Or.inr (Or.inr (Or.inr h))
    · exact Or.inl h
    · exact Or.inr (Or.inl h)

/-- Witness for C8 on the concrete window `winStd` (size 5x10, cursor (3,4)):
(1,2) is in bounds and moves the cursor; (5,2) has row = rows and fails with
the window unchanged. -/
theorem wmove_bounds_witness :
    wmove winStd 1 2 = ({ winStd with curY := 1, curX := 2 }, OK) ∧
    wmove winStd 5 2 = (winStd, ERR) :=
  ⟨(wmove_bounds winStd 1 2).1 (by decide) (by decide) (by decide) (by decide),
   (wmove_bounds winStd 5 2).2 (by decide)⟩

/-! ## Claim C2: the COLOR_PAIR / PAIR_NUMBER round trip -/

/-- Claim C2 (evaluated at the failing input): the round trip
`PAIR_NUMBER(COLOR_PAIR(p))` is NOT the identity on all of `[0, 64)`.  At
`p = 32` the left shift `32 << 26` sets the sign bit of the 32-bit `int`, and
the arithmetic right shift in `PAIR_NUMBER` sign-extends, yielding `-32`; at
`p = 63` it yields `-1`.  Below 32 the round trip is the identity, as `p = 31`
shows. -/
theorem pair_roundtrip_breaks_at_32 :
    PAIR_NUMBER (COLOR_PAIR 32) = -32 ∧ (-32 : Int) ≠ 32 ∧
    PAIR_NUMBER (COLOR_PAIR 63) = -1 ∧
    PAIR_NUMBER (COLOR_PAIR 31) = 31 := by
  decide

/-! ## Claim C6: cbreak -/

/-- Claim C6 (evaluated against the code): `cbreak` returns `ERR` for every
backend environment and every starting console mode — also when every backend
query and set succeeds — because the stray semicolon in `setmode` makes its
`return ERR` unconditional.  Moreover the `ENABLE_PROCESSED_INPUT` bit of the
final mode always equals that of the starting mode: `cbreak` never sets it. -/
theorem cbreak_always_fails (env : ConsoleEnv) (mode : Nat) :
    (cbreak env mode).snd = ERR ∧
    (cbreak env mode).fst &&& ENABLE_PROCESSED_INPUT =
      mode &&& ENABLE_PROCESSED_INPUT := by
  have hland : ∀ m : Nat,
      (m &&& (DWORD_MASK ^^^ ENABLE_LINE_INPUT)) &&& ENABLE_PROCESSED_INPUT =
        m &&& ENABLE_PROCESSED_INPUT := by
    intro m
    rw [Nat.land_assoc,
      show (DWORD_MASK ^^^ ENABLE_LINE_INPUT) &&& ENABLE_PROCESSED_INPUT =
        ENABLE_PROCESSED_INPUT from by decide]
  obtain ⟨g, s⟩ := env
  unfold cbreak clearmode setmode
  cases g <;> cases s <;>
    simp [ERR, OK, hland]

/-! ## Claim C3: init_pair and pair_content -/

/-- Claim C3 (evaluated against the code): `init_pair(0, f, b)` returns `ERR`
for every state and arguments; with the color subsystem enabled (`stColor`),
`init_pair(1, 4, 0)` returns `OK` and stores `(4, 0)` in the pair table; but
the subsequent `pair_content(1, &f, &b)`, although it returns `OK`, stores
nothing through the caller's output pointers (it assigns its local pointer
parameters instead), so the caller never receives `(4, 0)`. -/
theorem init_pair_pair_content_mismatch :
    (∀ (st : LibState) (f b : Int), (init_pair st 0 f b).snd = ERR) ∧
    (init_pair stColor 1 4 0).snd = OK ∧
    (init_pair stColor 1 4 0).fst.color_pairs 1 = ⟨4, 0⟩ ∧
    (pair_content (init_pair stColor 1 4 0).fst 1).2.1 = OK ∧
    (pair_content (init_pair stColor 1 4 0).fst 1).2.2 = none := by
  refine ⟨?_, by decide⟩
  intro st f b
  simp only [init_pair]
  split_ifs with h1 h2
  · exact absurd h2.2.2 (by decide)
  · rfl
  · rfl

/-! ## Claim C4: start_color -/

/-- Claim C4 (evaluated against the code, at the freshly initialized state):
`start_color` returns `OK`, fills the 8 basic colors with their canonical RGB
triples and sets the global color flag, but pair 0 is NOT assigned
white-on-black: the internal `init_pair(0, COLOR_WHITE, COLOR_BLACK)` call
fails (pair 0 is rejected, and `WC_COLOR` is not yet set at that point), so
`color_pairs[0]` keeps its zero-initialized value `(0, 0)` — black on black —
and `stdscr`'s attribute word becomes `getattrs(COLOR_PAIR(0)) = 0`.
The first conjunct states pair 0 is left unchanged from any starting state. -/
theorem start_color_pair0_not_assigned :
    (∀ st : LibState, (start_color st).fst.color_pairs 0 = st.color_pairs 0) ∧
    (start_color stInit).snd = OK ∧
    (start_color stInit).fst.flags &&& WC_COLOR ≠ 0 ∧
    (start_color stInit).fst.colors 0 = ⟨0, 0, 0⟩ ∧
    (start_color stInit).fst.colors 1 = ⟨0, 0, 1000⟩ ∧
    (start_color stInit).fst.colors 2 = ⟨0, 1000, 0⟩ ∧
    (start_color stInit).fst.colors 3 = ⟨0, 1000, 1000⟩ ∧
    (start_color stInit).fst.colors 4 = ⟨1000, 0, 0⟩ ∧
    (start_color stInit).fst.colors 5 = ⟨1000, 0, 1000⟩ ∧
    (start_color stInit).fst.colors 6 = ⟨1000, 1000, 0⟩ ∧
    (start_color stInit).fst.colors 7 = ⟨1000, 1000, 1000⟩ ∧
    ((start_color stInit).fst.windows stdscrId).attrs = 0 ∧
    (start_color stInit).fst.color_pairs 0 = ⟨0, 0⟩ ∧
    (⟨0, 0⟩ : ColorInfo) ≠ ⟨COLOR_WHITE, COLOR_BLACK⟩ := by
  refine ⟨?_, by decide⟩
  intro st
  simp only [start_color, init_pair, attrset, wattrset, updateWin, has_colors]
  split_ifs <;>
    first
      | rfl
      | (rename_i h; exact absurd h.2.2 (by decide))

/-! ## Claim C5: mvwprintw cursor restoration -/

/-- Claim C5 (evaluated at a failing input): on a failed write step,
`mvwprintw` does not restore the cursor of the window it was called on.  With
`stTwo` (caller window at slot `true`, cursor (2,6); `stdscr` cursor (3,4))
and a failing format, `mvwprintw(win, 1, 2, ...)` returns `ERR`, leaves the
caller window's cursor at the moved-to position (1,2) — not restored to
(2,6) — and instead rewrites `stdscr`'s cursor with its saved value (3,4). -/
theorem mvwprintw_restores_stdscr_cursor :
    (mvwprintw envOk stTwo true 1 2 none).snd = ERR ∧
    ((mvwprintw envOk stTwo true 1 2 none).fst.windows true).curY = 1 ∧
    ((mvwprintw envOk stTwo true 1 2 none).fst.windows true).curX = 2 ∧
    (stTwo.windows true).curY = 2 ∧
    (stTwo.windows true).curX = 6 ∧
    ((mvwprintw envOk stTwo true 1 2 none).fst.windows true).curX ≠
      (stTwo.windows true).curX ∧
    ((mvwprintw envOk stTwo true 1 2 none).fst.windows false).curY = 3 ∧
    ((mvwprintw envOk stTwo true 1 2 none).fst.windows false).curX = 4 := by
  decide

/-! ## Claim C9: va_wprintw swallows mid-string write failures -/

/-- Claim C9: whenever formatting succeeds (`some s`), `va_wprintw` — and with
it `printw`, `wprintw`, `mvprintw` and `mvwprintw` — returns `OK`, for every
backend, including one on which some `waddch` fails mid-string; and a failing
`waddch` on the first character stops the write loop with the window
unchanged, so the failure is never reported through the return value. -/
theorem va_wprintw_swallows_write_failure (env : Backend) (st : LibState)
    (wid : Bool) (s : List Int) (y x : Int) (w : Window) (c : Int)
    (cs : List Int) (hfail : (waddch env w c).snd = ERR) :
    (va_wprintw env st wid (some s)).snd = OK ∧
    (printw env st (some s)).snd = OK ∧
    (wprintw env st wid (some s)).snd = OK ∧
    (mvprintw env st y x (some s)).snd = OK ∧
    (mvwprintw env st wid y x (some s)).snd = OK ∧
    writeChars env w (c :: cs) = w := by
  have hva : ∀ (st1 : LibState) (wid1 : Bool),
      (va_wprintw env st1 wid1 (some s)).snd = OK := fun _ _ => rfl
  refine ⟨hva st wid, hva st stdscrId, hva st wid, ?_, ?_, ?_⟩
  · simp only [mvprintw]
    rw [hva, if_neg (by decide : ¬(OK = ERR))]
    exact hva _ _
  · simp only [mvwprintw]
    rw [hva, if_neg (by decide : ¬(OK = ERR))]
    exact hva _ _
  · unfold writeChars
    rw [hfail, if_neg (by decide)]
    exact waddch_err_fst env w c hfail

/-- Witness for C9: a backend on which every cell write fails, concrete state
and strings; the first `waddch` of character 65 fails, yet every print entry
point reports `OK` and the write loop stops with the window unchanged. -/
theorem va_wprintw_swallows_write_failure_witness :
    (va_wprintw envFail stTwo true (some [67])).snd = OK ∧
    (printw envFail stTwo (some [67])).snd = OK ∧
    (wprintw envFail stTwo true (some [67])).snd = OK ∧
    (mvprintw envFail stTwo 0 1 (some [67])).snd = OK ∧
    (mvwprintw envFail stTwo true 0 1 (some [67])).snd = OK ∧
    writeChars envFail winStd (65 :: [66]) = winStd :=
  va_wprintw_swallows_write_failure envFail stTwo true [67] 0 1 winStd 65 [66]
    (by decide)

/-! ## Claim C1: the refresh buffer-sync invariant -/

/-- Claim C1: immediately after `refresh` on the default window, the two
console screen buffers hold identical cell contents (character and attribute
mask) at every cell of the window rectangle, and the primary/back indices
have been toggled while remaining complementary.  The hypothesis is the index
invariant `bbuf = !prim` established by `initscr` (`bbuf = !(prim = 0)`) and
preserved by every operation. -/
theorem refresh_buffer_sync (st : LibState) (y x : Int)
    (hcomp : (st.windows stdscrId).bbuf = !(st.windows stdscrId).prim)
    (hy1 : (st.windows stdscrId).rectTop ≤ y)
    (hy2 : y ≤ (st.windows stdscrId).rectBottom)
    (hx1 : (st.windows stdscrId).rectLeft ≤ x)
    (hx2 : x ≤ (st.windows stdscrId).rectRight) :
    ((refresh st).fst.windows stdscrId).hcon ((refresh st).fst.windows stdscrId).prim y x
      = ((refresh st).fst.windows stdscrId).hcon ((refresh st).fst.windows stdscrId).bbuf y x
    ∧ ((refresh st).fst.windows stdscrId).prim = !(st.windows stdscrId).prim
    ∧ ((refresh st).fst.windows stdscrId).bbuf = !(st.windows stdscrId).bbuf
    ∧ ((refresh st).fst.windows stdscrId).prim ≠ ((refresh st).fst.windows stdscrId).bbuf := by
  have hwin : (refresh st).fst.windows stdscrId
      = (refreshWin (st.windows stdscrId)).fst := by
    simp [refresh, updateWin]
  rw [hwin]
  refine ⟨?_, ?_, ?_, ?_⟩ <;>
    simp [refreshWin, Bool.not_not, hcomp, hy1, hy2, hx1, hx2]

/-- Witness for C1 at the concrete state `stTwo` (whose `stdscr` buffers
differ cell-by-cell before the call) and the rectangle cell (0, 0). -/
theorem refresh_buffer_sync_witness :
    ((refresh stTwo).fst.windows stdscrId).hcon ((refresh stTwo).fst.windows stdscrId).prim 0 0
      = ((refresh stTwo).fst.windows stdscrId).hcon ((refresh stTwo).fst.windows stdscrId).bbuf 0 0
    ∧ ((refresh stTwo).fst.windows stdscrId).prim = !(stTwo.windows stdscrId).prim
    ∧ ((refresh stTwo).fst.windows stdscrId).bbuf = !(stTwo.windows stdscrId).bbuf
    ∧ ((refresh stTwo).fst.windows stdscrId).prim ≠ ((refresh stTwo).fst.windows stdscrId).bbuf :=
  refresh_buffer_sync stTwo 0 0 (by decide) (by decide) (by decide)
    (by decide) (by decide)

/-! ## Claim C10: mvwgetch moves on stdscr -/

/-- Claim C10: `mvwgetch(win, y, x)` performs its initial move on `stdscr`,
not on `win`: the call equals `wgetch` run on the state in which `stdscr`'s
cursor has been set to the in-bounds (y, x) and, for `win` distinct from
`stdscr`, `win` itself is untouched before input is read. -/
theorem mvwgetch_moves_stdscr (env : Backend) (st : LibState) (wid : Bool)
    (y x : Int) (events : List InputEvent)
    (hw : wid ≠ stdscrId)
    (hy0 : 0 ≤ y) (hy : y < (st.windows stdscrId).sizeY)
    (hx0 : 0 ≤ x) (hx : x < (st.windows stdscrId).sizeX) :
    mvwgetch env st wid y x events
      = wgetch env (stateWmove st stdscrId y x).fst wid events
    ∧ ((stateWmove st stdscrId y x).fst.windows stdscrId).curY = y
    ∧ ((stateWmove st stdscrId y x).fst.windows stdscrId).curX = x
    ∧ (stateWmove st stdscrId y x).fst.windows wid = st.windows wid := by
  have hmove : (wmove (st.windows stdscrId) y x).fst
      = { st.windows stdscrId with curY := y, curX := x } := by
    unfold wmove
    rw [if_neg]
    push_neg
    exact ⟨hy, hx, hy0, hx0⟩
  refine ⟨rfl, ?_, ?_, ?_⟩ <;>
    simp [stateWmove, updateWin, hmove, hw]

/-- Witness for C10 at the concrete two-window state `stTwo`: the caller
window in slot `true`, the in-bounds target (1, 2), an empty input queue. -/
theorem mvwgetch_moves_stdscr_witness :
    mvwgetch envOk stTwo true 1 2 []
      = wgetch envOk (stateWmove stTwo stdscrId 1 2).fst true []
    ∧ ((stateWmove stTwo stdscrId 1 2).fst.windows stdscrId).curY = 1
    ∧ ((stateWmove stTwo stdscrId 1 2).fst.windows stdscrId).curX = 2
    ∧ (stateWmove stTwo stdscrId 1 2).fst.windows true = stTwo.windows true :=
  mvwgetch_moves_stdscr envOk stTwo true 1 2 [] (by decide) (by decide)
    (by decide) (by decide) (by decide)

/-! ## Claim C7: keypad translation in wgetch -/

/-- Claim C7 (as amended): with the window's keypad flag set, a key-down
event's result is the table lookup of its virtual-key code, falling back to
the raw character when the code is not in the table; the table maps the
arrow keys, delete/home/end/page-up/page-down, the numeric-keypad directional
keys, F1 through F24 and the named command keys — but contains NO entry for
the insert key (`VK_INSERT`), whose events therefore yield the raw
character. -/
theorem wgetch_keypad_translation (env : Backend) (st : LibState) (wid : Bool)
    (e : InputEvent) (rest : List InputEvent)
    (hk : e.isKeyEvent = true) (hd : e.keyDown = true)
    (hkp : (st.windows wid).flags &&& WC_WKEYPAD ≠ 0) :
    (wgetch env st wid (e :: rest)).snd
      = (vkTranslate e.virtualKeyCode).getD e.asciiChar
    ∧ vkTranslate VK_LEFT = some KEY_LEFT
    ∧ vkTranslate VK_UP = some KEY_UP
    ∧ vkTranslate VK_RIGHT = some KEY_RIGHT
    ∧ vkTranslate VK_DOWN = some KEY_DOWN
    ∧ vkTranslate VK_DELETE = some KEY_DC
    ∧ vkTranslate VK_HOME = some KEY_HOME
    ∧ vkTranslate VK_END = some KEY_END
    ∧ vkTranslate VK_PRIOR = some KEY_PPAGE
    ∧ vkTranslate VK_NEXT = some KEY_NPAGE
    ∧ vkTranslate (VK_NUMPAD 1) = some KEY_C1
    ∧ vkTranslate (VK_NUMPAD 5) = some KEY_B2
    ∧ vkTranslate (VK_NUMPAD 9) = some KEY_A3
    ∧ vkTranslate (VK_F 1) = some (KEY_F 1)
    ∧ vkTranslate (VK_F 24) = some (KEY_F 24)
    ∧ vkTranslate VK_ESCAPE = some KEY_EXIT
    ∧ vkTranslate VK_RETURN = some KEY_ENTER
    ∧ vkTranslate VK_INSERT = none := by
  refine ⟨?_, by decide⟩
  have hloop : wgetchLoop (e :: rest) = some e := by
    simp [wgetchLoop, hk, hd]
  simp only [wgetch, hloop]
  rw [if_pos hkp]
  cases hv : vkTranslate e.virtualKeyCode <;> simp [hv]

/-- Witness for C7 (amended) at a concrete left-arrow key-down event on the
keypad-enabled window of `stTwo`. -/
theorem wgetch_keypad_translation_witness :
    (wgetch envOk stTwo true (eLeft :: [])).snd
      = (vkTranslate eLeft.virtualKeyCode).getD eLeft.asciiChar
    ∧ vkTranslate VK_LEFT = some KEY_LEFT
    ∧ vkTranslate VK_UP = some KEY_UP
    ∧ vkTranslate VK_RIGHT = some KEY_RIGHT
    ∧ vkTranslate VK_DOWN = some KEY_DOWN
    ∧ vkTranslate VK_DELETE = some KEY_DC
    ∧ vkTranslate VK_HOME = some KEY_HOME
    ∧ vkTranslate VK_END = some KEY_END
    ∧ vkTranslate VK_PRIOR = some KEY_PPAGE
    ∧ vkTranslate VK_NEXT = some KEY_NPAGE
    ∧ vkTranslate (VK_NUMPAD 1) = some KEY_C1
    ∧ vkTranslate (VK_NUMPAD 5) = some KEY_B2
    ∧ vkTranslate (VK_NUMPAD 9) = some KEY_A3
    ∧ vkTranslate (VK_F 1) = some (KEY_F 1)
    ∧ vkTranslate (VK_F 24) = some (KEY_F 24)
    ∧ vkTranslate VK_ESCAPE = some KEY_EXIT
    ∧ vkTranslate VK_RETURN = some KEY_ENTER
    ∧ vkTranslate VK_INSERT = none :=
  wgetch_keypad_translation envOk stTwo true eLeft [] (by decide) (by decide)
    (by decide)

/-- Counterexample for C7 as originally stated: the insert key is claimed to
be translated (to `KEY_IC`), but a key-down insert event (`VK_INSERT`, raw
character 97) on a keypad-enabled window returns the raw character 97, which
is not `KEY_IC`. -/
theorem wgetch_insert_returns_raw_char :
    (wgetch envOk stTwo true [eIns]).snd = 97 ∧ (97 : Int) ≠ KEY_IC := by
  decide
